import Mathlib

/-!
Shallow embedding of `src/rotary_encoder.py` (a Raspberry Pi rotary-encoder
volume daemon): the quadrature decoder (`RotaryEncoder`), the volume
controller (`Volume`), the event queue drain (`EventWrapper.consume_queue`)
and the button path, together with theorems settling the frozen claims
about them.

Conventions of the embedding:
- Python ints are `Int` (or `Nat` for pin numbers and levels);
- the `amixer` subprocess is modelled by the response the environment gives
  it (`AmixerResp`: exit code plus the decoded stdout lines); the command
  the program hands to `amixer` is recorded in a trace of `Cmd` values;
- `sys.exit(n)` and an uncaught Python exception both terminate the
  process; they are the two constructors of `Halt`, and fallible code
  returns `Except Halt`;
- strings are `List Char`; Python `str.index`/`str.rindex`/slicing/`int()`
  are modelled by `findIdx`, `rfindIdx`, `pySlice` and `pyInt`.
-/

namespace RotaryVolume

/-- Source constant `PM_GPIO_A`: BCM pin of encoder line A. -/
def PM_GPIO_A : Nat := 10

/-- Source constant `PM_GPIO_B`: BCM pin of encoder line B. -/
def PM_GPIO_B : Nat := 11

/-- Source constant `PM_GPIO_BUTTON`: BCM pin of the knob's button. -/
def PM_GPIO_BUTTON : Nat := 12

/-- Source constant `VOLUME_MIN`. -/
def VOLUME_MIN : Int := 60

/-- Source constant `VOLUME_MAX`. -/
def VOLUME_MAX : Int := 96

/-- Source constant `VOLUME_INCREMENT`. -/
def VOLUME_INCREMENT : Int := 1

/-- Source constant `VOLUME_MIXER_CONTROL_ID` (every `amixer` command in the
script names this control). -/
def VOLUME_MIXER_CONTROL_ID : String := "Master"

/-! ## Quadrature decoder (`RotaryEncoder`) -/

/-- Mutable state of `RotaryEncoder`: the two configured pins, the stored
levels `_lev_a`/`_lev_b`, and `_last_gpio` (Python `None` at start). -/
structure EncState where
  gpio_a : Nat
  gpio_b : Nat
  lev_a : Nat
  lev_b : Nat
  last_gpio : Option Nat
deriving DecidableEq

/-- The decoder state `RotaryEncoder.__init__` builds for the configured
pins: both stored levels 0, `_last_gpio = None`. -/
def encInit : EncState :=
  { gpio_a := PM_GPIO_A, gpio_b := PM_GPIO_B, lev_a := 0, lev_b := 0,
    last_gpio := none }

/-- Embedding of `RotaryEncoder._gpio_input_rotation_callback`.  `channel`
is the pin the edge was reported for and `level` the value
`GPIO.input(channel)` read.  Returns the new state and the delta passed to
`self._callback` (`some 1`, `some (-1)`), or `none` when no callback fires.
Mirrors the source line by line: store the level (`_lev_a` when
`channel == _gpio_a`, else `_lev_b` — note an unconfigured channel also
lands in the `else`); return early when `channel == _last_gpio`
(debounce); otherwise set `_last_gpio` and fire on a high level with the
other stored level high. -/
def rotation_callback (st : EncState) (channel level : Nat) :
    EncState × Option Int :=
  let st1 := if channel = st.gpio_a then { st with lev_a := level }
             else { st with lev_b := level }
  if some channel = st1.last_gpio then (st1, none)
  else
    let st2 := { st1 with last_gpio := some channel }
    if channel = st2.gpio_a ∧ level = 1 then
      if st2.lev_b = 1 then (st2, some 1) else (st2, none)
    else if channel = st2.gpio_b ∧ level = 1 then
      if st2.lev_a = 1 then (st2, some (-1)) else (st2, none)
    else (st2, none)

/-! ## Process termination and the `amixer` backend -/

/-- How the process can terminate: `exit c` models `sys.exit(c)` (process
exit code `c`), `exc` an uncaught Python exception (`ValueError`,
`IndexError`, ...). -/
inductive Halt where
  | exit (code : Int)
  | exc
deriving DecidableEq

/-- What the environment answers one `amixer` invocation with: the
subprocess exit code and its decoded stdout lines. -/
structure AmixerResp where
  code : Int
  lines : List (List Char)
deriving DecidableEq

/-- The command strings the script formats and hands to `amixer`; all of
them name `VOLUME_MIXER_CONTROL_ID`.  `setUnmutePct v` is
`set 'Master' unmute v%` with the integer `v` formatted in, `setMute` is
`set 'Master' mute`, `setUnmute` is `set 'Master' unmute`, `getStatus` is
`get 'Master'`. -/
inductive Cmd where
  | setUnmutePct (v : Int)
  | setMute
  | setUnmute
  | getStatus
deriving DecidableEq

/-- Embedding of `Volume._amixer`: run the command; on a non-zero
subprocess exit code the script calls `sys.exit(0)`, otherwise it returns
the command's stdout. -/
def amixer (r : AmixerResp) : Except Halt (List (List Char)) :=
  if r.code ≠ 0 then Except.error (Halt.exit 0) else Except.ok r.lines

/-- Embedding of `EventWrapper._on_exit`: the SIGINT handler calls
`sys.exit(0)`. -/
def on_exit_halt : Halt := Halt.exit 0

/-! ## Python string primitives used by `Volume._sync` -/

/-- Python `str.index(c)`: position of the first occurrence of `c`, `none`
where Python raises `ValueError`. -/
def findIdx (c : Char) : List Char → Option Nat
  | [] => none
  | x :: xs => if x = c then some 0 else (findIdx c xs).map (· + 1)

/-- Python `str.rindex(c)`: position of the last occurrence of `c`, `none`
where Python raises `ValueError`. -/
def rfindIdx (c : Char) : List Char → Option Nat
  | [] => none
  | x :: xs =>
    match rfindIdx c xs with
    | some i => some (i + 1)
    | none => if x = c then some 0 else none

/-- Python slice `s[i:j]` for non-negative bounds. -/
def pySlice (s : List Char) (i j : Nat) : List Char :=
  (s.take j).drop i

/-- Value of a decimal digit string (most significant first). -/
def digitsToNat (ds : List Char) : Nat :=
  ds.foldl (fun a c => a * 10 + (c.toNat - 48)) 0

/-- The whitespace stripping Python `int(str)` performs on both ends. -/
def pyStrip (s : List Char) : List Char :=
  ((s.dropWhile Char.isWhitespace).reverse.dropWhile Char.isWhitespace).reverse

/-- Python `int(str)`: strip whitespace, allow one optional sign, then
require at least one decimal digit; `none` where Python raises
`ValueError`. -/
def pyInt (s : List Char) : Option Int :=
  match pyStrip s with
  | [] => none
  | '-' :: ds =>
    if ds.all Char.isDigit && !ds.isEmpty then some (-(digitsToNat ds : Int))
    else none
  | '+' :: ds =>
    if ds.all Char.isDigit && !ds.isEmpty then some ((digitsToNat ds : Int))
    else none
  | ds =>
    if ds.all Char.isDigit then some ((digitsToNat ds : Int)) else none

/-! ## Volume controller (`Volume`) -/

/-- Mutable state of `Volume`.  `is_muted_priv` is the attribute
`self._is_muted` assigned in `__init__`; `is_muted_pub` is the distinct
attribute `self.is_muted` that `_sync` assigns (the source writes
`self.is_muted`, without the underscore, in `_sync` and reads
`self._is_muted` everywhere else).  It does not exist before the first
`_sync`; since `__init__` runs `_sync` before any read, it is carried here
as a plain field. -/
structure VolumeState where
  min : Int
  max : Int
  increment : Int
  last_volume : Int
  volume : Int
  is_muted_priv : Bool
  is_muted_pub : Bool
deriving DecidableEq

/-- Embedding of `Volume._constrain`. -/
def constrain (st : VolumeState) (val : Int) : Int :=
  if val < st.min then st.min
  else if val > st.max then st.max
  else val

/-- Embedding of `Volume._sync` applied to already-obtained output lines:
take the last line, set `self.is_muted` from the token between the last
`[` and the last `]` compared with `"off"`, then set `self._volume` to
`int` of the text between the first `[` and the first `%`.  Any failing
`index`/`rindex`/`int` (and `lines[-1]` on empty output) is an uncaught
exception. -/
def sync (st : VolumeState) (output : List (List Char)) :
    Except Halt VolumeState :=
  match output.getLast? with
  | none => Except.error Halt.exc
  | some last =>
    match rfindIdx '[' last, rfindIdx ']' last with
    | some r1, some r2 =>
      let st1 := { st with is_muted_pub := pySlice last (r1 + 1) r2 == "off".toList }
      match findIdx '[' last, findIdx '%' last with
      | some i1, some i2 =>
        match pyInt (pySlice last (i1 + 1) i2) with
        | some n => Except.ok { st1 with volume := n }
        | none => Except.error Halt.exc
      | _, _ => Except.error Halt.exc
    | _, _ => Except.error Halt.exc

/-- Embedding of `Volume._set_volume`: store the constrained value into
`self._volume`, format the RAW argument `val` into
`set 'Master' unmute {val}%`, run it, and `_sync` on its output.  The
first component is the trace of commands handed to `amixer` (the command
is executed before the exit-code check, so it is in the trace even when
the call halts). -/
def set_volume (st : VolumeState) (r : AmixerResp) (val : Int) :
    List Cmd × Except Halt VolumeState :=
  let st1 := { st with volume := constrain st val }
  ([Cmd.setUnmutePct val],
    match amixer r with
    | Except.error h => Except.error h
    | Except.ok out => sync st1 out)

/-- Embedding of `Volume.up`. -/
def up (st : VolumeState) (r : AmixerResp) :
    List Cmd × Except Halt VolumeState :=
  set_volume st r (st.volume + st.increment)

/-- Embedding of `Volume.down`. -/
def down (st : VolumeState) (r : AmixerResp) :
    List Cmd × Except Halt VolumeState :=
  set_volume st r (st.volume - st.increment)

/-- Tail of `Volume.toggle` shared by its two branches: run the chosen
mute/unmute command `c`, `_sync` on its output, and — because the branch
condition re-reads `self._is_muted` (`is_muted_priv`), which `sync` never
assigns — restore `self._last_volume` through `_set_volume` whenever that
stale flag is false. -/
def toggle_tail (st0 : VolumeState) (c : Cmd) (r1 r2 : AmixerResp) :
    List Cmd × Except Halt VolumeState :=
  match amixer r1 with
  | Except.error h => ([c], Except.error h)
  | Except.ok out =>
    match sync st0 out with
    | Except.error h => ([c], Except.error h)
    | Except.ok st1 =>
      if st1.is_muted_priv then ([c], Except.ok st1)
      else
        (c :: (set_volume st1 r2 st1.last_volume).1,
         (set_volume st1 r2 st1.last_volume).2)

/-- Embedding of `Volume.toggle`.  `r1` answers the mute/unmute command,
`r2` the `set ... unmute {..}%` command of the restoring `_set_volume`
(consumed only when that branch runs).  When `self._is_muted` is false the
current volume is saved into `self._last_volume` and the command is
`mute`, otherwise the command is `unmute`. -/
def toggle (st : VolumeState) (r1 r2 : AmixerResp) :
    List Cmd × Except Halt VolumeState :=
  if st.is_muted_priv then toggle_tail st Cmd.setUnmute r1 r2
  else toggle_tail { st with last_volume := st.volume } Cmd.setMute r1 r2

/-- Embedding of `Volume._sync` with no argument: run `get 'Master'` and
parse its output. -/
def sync_query (st : VolumeState) (r : AmixerResp) :
    List Cmd × Except Halt VolumeState :=
  ([Cmd.getStatus],
    match amixer r with
    | Except.error h => Except.error h
    | Except.ok out => sync st out)

/-- The field values `Volume.__init__` assigns before its `_sync()` call. -/
def initialState : VolumeState :=
  { min := VOLUME_MIN, max := VOLUME_MAX, increment := VOLUME_INCREMENT,
    last_volume := VOLUME_MIN, volume := VOLUME_MIN,
    is_muted_priv := false, is_muted_pub := false }

/-- Embedding of `Volume.__init__`: assign the fields, then `_sync()`
against the backend's answer to `get 'Master'`. -/
def volumeInit (r : AmixerResp) : List Cmd × Except Halt VolumeState :=
  sync_query initialState r

/-! ## Event queue drain (`EventWrapper.consume_queue`) -/

/-- Embedding of `EventWrapper.consume_queue`: the queued deltas, front
first, are dequeued one by one; a delta equal to `1` runs `Volume.up`,
any other delta runs `Volume.down`.  `resps k` is the backend's answer to
the `k`-th `amixer` invocation of the drain (each `up`/`down` performs
exactly one). -/
def consume_queue (st : VolumeState) (q : List Int)
    (resps : Nat → AmixerResp) (k : Nat) :
    List Cmd × Except Halt VolumeState :=
  match q with
  | [] => ([], Except.ok st)
  | d :: rest =>
    let act := if d = 1 then up st (resps k) else down st (resps k)
    match act.2 with
    | Except.error h => (act.1, Except.error h)
    | Except.ok st1 =>
      (act.1 ++ (consume_queue st1 rest resps (k + 1)).1,
       (consume_queue st1 rest resps (k + 1)).2)

/-- Action of one dequeued rotation event, written the way the spec words
it: `+1` invokes `step_up`, `-1` invokes `step_down` (no other deltas
occur in a rotation-event queue). -/
def specEventAction (st : VolumeState) (d : Int) (r : AmixerResp) :
    List Cmd × Except Halt VolumeState :=
  if d = 1 then up st r
  else if d = -1 then down st r
  else ([], Except.ok st)

/-- One fold step of the spec-side dispatch: once halted nothing more is
applied; otherwise the event's action runs and its commands are appended
to the trace. -/
def specDispatchStep (resps : Nat → AmixerResp)
    (acc : List Cmd × Except Halt VolumeState) (e : Nat × Int) :
    List Cmd × Except Halt VolumeState :=
  match acc.2 with
  | Except.error _ => acc
  | Except.ok st =>
    (acc.1 ++ (specEventAction st e.2 (resps e.1)).1,
     (specEventAction st e.2 (resps e.1)).2)

/-- Spec-side dispatch of a queue snapshot: fold the events, paired with
their dequeue positions, strictly in FIFO order. -/
def specDispatch (st : VolumeState) (q : List Int)
    (resps : Nat → AmixerResp) (k : Nat) :
    List Cmd × Except Halt VolumeState :=
  (List.enumFrom k q).foldl (specDispatchStep resps) ([], Except.ok st)

/-! ## Button path -/

/-- Result of a Python call: `ok` when the callee's positional parameters
match the arguments, `typeError` for the `TypeError` an arity mismatch
raises. -/
inductive PyCallResult (α : Type) where
  | ok (a : α)
  | typeError
deriving DecidableEq

/-- Calling a Python function: the body's value when the declared
positional parameter count matches the number of arguments passed,
`TypeError` otherwise. -/
def pyCall {α : Type} (declaredParams givenArgs : Nat) (body : α) :
    PyCallResult α :=
  if declaredParams = givenArgs then PyCallResult.ok body
  else PyCallResult.typeError

/-- Positional parameters of `EventWrapper._on_press_toggle` beyond
`self`: it is declared `def _on_press_toggle(self)`. -/
def on_press_toggle_params : Nat := 0

/-- Embedding of `RotaryEncoder._gpio_input_button_callback`: it invokes
the registered button callback with one positional argument,
`GPIO.input(channel)` (the pin level).  The callee is
`EventWrapper._on_press_toggle`, whose body would run `Volume.toggle`. -/
def gpio_input_button_callback (st : VolumeState) (r1 r2 : AmixerResp)
    (_level : Nat) : PyCallResult (List Cmd × Except Halt VolumeState) :=
  pyCall on_press_toggle_params 1 (toggle st r1 r2)

/-! ## Concrete sample data used by witnesses and counterexamples -/

/-- An `amixer` status line reporting 59% unmuted (as `amixer` prints
after `set 'Master' unmute 59%`). -/
def linePlayback59 : List Char := "  Mono: Playback 59 [59%] [on]".toList

/-- An `amixer` status line reporting 70% muted. -/
def linePlayback70Off : List Char := "  Mono: Playback 70 [70%] [off]".toList

/-- An `amixer` status line reporting 70% unmuted. -/
def linePlayback70On : List Char := "  Mono: Playback 70 [70%] [on]".toList

/-- A successful backend response whose status line reports 59% unmuted. -/
def respPlayback59 : AmixerResp := { code := 0, lines := [linePlayback59] }

/-- A successful backend response whose status line reports 70% muted. -/
def respPlayback70Off : AmixerResp := { code := 0, lines := [linePlayback70Off] }

/-- A successful backend response whose status line reports 70% unmuted. -/
def respPlayback70On : AmixerResp := { code := 0, lines := [linePlayback70On] }

/-- A `Volume` state at the configured minimum, unmuted. -/
def stAtMin : VolumeState :=
  { min := 60, max := 96, increment := 1, last_volume := 60, volume := 60,
    is_muted_priv := false, is_muted_pub := false }

/-- A `Volume` state at 70%, unmuted. -/
def stAt70 : VolumeState :=
  { min := 60, max := 96, increment := 1, last_volume := 60, volume := 70,
    is_muted_priv := false, is_muted_pub := false }

/-- A decoder state in which line B's stored level is high. -/
def encBHigh : EncState :=
  { gpio_a := 10, gpio_b := 11, lev_a := 0, lev_b := 1, last_gpio := none }

/-- A decoder state whose last notification came from line A. -/
def encAfterA : EncState :=
  { gpio_a := 10, gpio_b := 11, lev_a := 1, lev_b := 0, last_gpio := some 10 }

/-- A decoder state whose last notification came from the unconfigured
line 99. -/
def encAfter99 : EncState :=
  { gpio_a := 10, gpio_b := 11, lev_a := 0, lev_b := 1, last_gpio := some 99 }

/-! ## Helper lemmas about the string primitives -/

/-- A first occurrence at the head. -/
theorem findIdx_cons_self (c : Char) (ys : List Char) :
    findIdx c (c :: ys) = some 0 := by
  simp [findIdx]

/-- Python `index` over an append whose left part misses the character. -/
theorem findIdx_append_some (c : Char) (xs ys : List Char) (i : Nat)
    (hx : c ∉ xs) (hy : findIdx c ys = some i) :
    findIdx c (xs ++ ys) = some (xs.length + i) := by
  induction xs with
  | nil => simpa using hy
  | cons x xs ih =>
    have hxc : ¬ x = c := by
      intro h
      exact hx (h ▸ List.mem_cons_self x xs)
    have hx' : c ∉ xs := fun h => hx (List.mem_cons_of_mem _ h)
    simp only [List.cons_append, findIdx, hxc, if_false, List.append_eq,
      ih hx', Option.map_some']
    simp only [List.length_cons]
    congr 1
    omega

/-- Python `rindex` misses exactly the characters not in the string. -/
theorem rfindIdx_eq_none (c : Char) (xs : List Char) (h : c ∉ xs) :
    rfindIdx c xs = none := by
  induction xs with
  | nil => rfl
  | cons x xs ih =>
    have hxc : ¬ x = c := by
      intro hh
      exact h (hh ▸ List.mem_cons_self x xs)
    have hx' : c ∉ xs := fun hh => h (List.mem_cons_of_mem _ hh)
    simp [rfindIdx, ih hx', hxc]

/-- Python `rindex` over an append whose right part has the character. -/
theorem rfindIdx_append_some (c : Char) (xs ys : List Char) (i : Nat)
    (hy : rfindIdx c ys = some i) :
    rfindIdx c (xs ++ ys) = some (xs.length + i) := by
  induction xs with
  | nil => simpa using hy
  | cons x xs ih =>
    simp only [List.cons_append, rfindIdx, List.append_eq, ih, List.length_cons]
    congr 1
    omega

/-- The last occurrence in a string ending with the character is its final
position. -/
theorem rfindIdx_concat_self (c : Char) (zs : List Char) :
    rfindIdx c (zs ++ [c]) = some zs.length := by
  induction zs with
  | nil => simp [rfindIdx]
  | cons z zs ih => simp [rfindIdx, ih]

/-- A Python slice that spans exactly the middle part of an append. -/
theorem pySlice_append_mid (xs mid rest : List Char) :
    pySlice (xs ++ (mid ++ rest)) xs.length (xs.length + mid.length) = mid := by
  unfold pySlice
  rw [List.take_append mid.length, List.take_left, List.drop_left]

/-- Python `int` of a non-empty decimal digit string. -/
theorem pyInt_digits (ds : List Char) (h1 : ds ≠ [])
    (h2 : ∀ c ∈ ds, c ∈ "0123456789".toList) :
    pyInt ds = some ((digitsToNat ds : Int)) := by
  have hfacts : ∀ c ∈ ("0123456789".toList),
      Char.isDigit c = true ∧ Char.isWhitespace c = false ∧
      ¬ c = '-' ∧ ¬ c = '+' := by decide
  have hall : ds.all Char.isDigit = true := by
    rw [List.all_eq_true]
    intro c hc
    exact (hfacts c (h2 c hc)).1
  have hws : ∀ c ∈ ds, Char.isWhitespace c = false :=
    fun c hc => (hfacts c (h2 c hc)).2.1
  have hstrip : pyStrip ds = ds := by
    unfold pyStrip
    have hd1 : ds.dropWhile Char.isWhitespace = ds := by
      cases ds with
      | nil => rfl
      | cons c rest =>
        simp [List.dropWhile_cons, hws c (List.mem_cons_self c rest)]
    rw [hd1]
    have hd2 : ds.reverse.dropWhile Char.isWhitespace = ds.reverse := by
      cases hrev : ds.reverse with
      | nil => rfl
      | cons c rest =>
        have hc : c ∈ ds := by
          rw [← List.mem_reverse, hrev]
          exact List.mem_cons_self c rest
        simp [List.dropWhile_cons, hws c hc]
    rw [hd2, List.reverse_reverse]
  cases ds with
  | nil => exact absurd rfl h1
  | cons c rest =>
    have hcm := h2 c (List.mem_cons_self c rest)
    have hminus : ¬ c = '-' := (hfacts c hcm).2.2.1
    have hplus : ¬ c = '+' := (hfacts c hcm).2.2.2
    unfold pyInt
    rw [hstrip]
    split
    · simp_all
    · rename_i heq
      rw [List.cons.injEq] at heq
      exact absurd heq.1 hminus
    · rename_i heq
      rw [List.cons.injEq] at heq
      exact absurd heq.1 hplus
    · rw [if_pos hall]

/-! ## Helper lemmas about the volume operations -/

/-- A successful `_amixer` call returns exactly the subprocess stdout. -/
theorem amixer_ok_inv (r : AmixerResp) (out : List (List Char))
    (h : amixer r = Except.ok out) : out = r.lines := by
  unfold amixer at h
  split at h
  · exact absurd h (by simp)
  · exact (Except.ok.injEq _ _ ▸ h).symm

/-- Inversion of a successful `_sync`: the scanned positions exist and the
returned state is the input state with `is_muted_pub` set from the
last-bracket token and `volume` set to the parsed percentage. -/
theorem sync_ok_inv (st st' : VolumeState) (output : List (List Char))
    (h : sync st output = Except.ok st') :
    ∃ last r1 r2 i1 i2 n,
      output.getLast? = some last ∧ rfindIdx '[' last = some r1 ∧
      rfindIdx ']' last = some r2 ∧ findIdx '[' last = some i1 ∧
      findIdx '%' last = some i2 ∧ pyInt (pySlice last (i1 + 1) i2) = some n ∧
      st' = { st with is_muted_pub := pySlice last (r1 + 1) r2 == "off".toList,
                      volume := n } := by
  unfold sync at h
  split at h
  · exact absurd h (by simp)
  · rename_i last hlast
    split at h
    · rename_i r1 r2 hr1 hr2
      split at h
      · rename_i i1 i2 hi1 hi2
        split at h
        · rename_i n hn
          refine ⟨last, r1, r2, i1, i2, n, hlast, hr1, hr2, hi1, hi2, hn, ?_⟩
          exact ((Except.ok.injEq _ _ ▸ h)).symm
        · exact absurd h (by simp)
      · exact absurd h (by simp)
    · exact absurd h (by simp)

/-- A `_set_volume` call that returns normally ends in a successful
`_sync` on the backend's output. -/
theorem set_volume_snd_ok_inv (st st' : VolumeState) (r : AmixerResp) (val : Int)
    (h : (set_volume st r val).2 = Except.ok st') :
    sync { st with volume := constrain st val } r.lines = Except.ok st' := by
  unfold set_volume at h
  simp only [] at h
  split at h
  · exact absurd h (by simp)
  · rename_i out hout
    rw [amixer_ok_inv r out hout] at h
    exact h

/-- A no-argument `_sync` that returns normally is a successful `_sync`
on the query's output. -/
theorem sync_query_ok_inv (st st' : VolumeState) (r : AmixerResp) (cs : List Cmd)
    (h : sync_query st r = (cs, Except.ok st')) :
    sync st r.lines = Except.ok st' := by
  unfold sync_query at h
  have h2 := congrArg Prod.snd h
  simp only [] at h2
  split at h2
  · exact absurd h2 (by simp)
  · rename_i out hout
    rw [amixer_ok_inv r out hout] at h2
    exact h2

/-- A `toggle` tail that returns normally ends in a successful `_sync`,
either directly on the mute/unmute output or inside the restoring
`_set_volume`. -/
theorem toggle_tail_ok_inv (st0 st' : VolumeState) (c : Cmd) (r1 r2 : AmixerResp)
    (cs : List Cmd) (h : toggle_tail st0 c r1 r2 = (cs, Except.ok st')) :
    ∃ st1, sync st1 r1.lines = Except.ok st' ∨ sync st1 r2.lines = Except.ok st' := by
  unfold toggle_tail at h
  split at h
  · have h2 := congrArg Prod.snd h
    exact absurd h2 (by simp)
  · rename_i out hout
    split at h
    · have h2 := congrArg Prod.snd h
      exact absurd h2 (by simp)
    · rename_i st1 hsync
      rw [amixer_ok_inv r1 out hout] at hsync
      split at h
      · have h2 := congrArg Prod.snd h
        simp only [] at h2
        rw [Except.ok.injEq] at h2
        exact ⟨_, Or.inl (h2 ▸ hsync)⟩
      · have h2 := congrArg Prod.snd h
        simp only [] at h2
        exact ⟨_, Or.inr (set_volume_snd_ok_inv st1 st' r2 st1.last_volume h2)⟩

/-- A `toggle` that returns normally ends in a successful `_sync`. -/
theorem toggle_ok_inv (st st' : VolumeState) (r1 r2 : AmixerResp) (cs : List Cmd)
    (h : toggle st r1 r2 = (cs, Except.ok st')) :
    ∃ st1, sync st1 r1.lines = Except.ok st' ∨ sync st1 r2.lines = Except.ok st' := by
  unfold toggle at h
  split at h
  · exact toggle_tail_ok_inv st st' Cmd.setUnmute r1 r2 cs h
  · exact toggle_tail_ok_inv { st with last_volume := st.volume } st' Cmd.setMute r1 r2 cs h

/-! ## Helper lemmas about the spec-side dispatch fold -/

/-- Once the dispatch has halted, further events change nothing. -/
theorem specDispatchStep_error (resps : Nat → AmixerResp) (l : List (Nat × Int))
    (cs : List Cmd) (h : Halt) :
    List.foldl (specDispatchStep resps) (cs, Except.error h) l = (cs, Except.error h) := by
  induction l with
  | nil => rfl
  | cons e l ih => simpa [specDispatchStep] using ih

/-- The dispatch fold only ever appends to the command trace it starts
with. -/
theorem specDispatchStep_shift (resps : Nat → AmixerResp) (l : List (Nat × Int))
    (cs : List Cmd) (st : VolumeState) :
    List.foldl (specDispatchStep resps) (cs, Except.ok st) l =
      (cs ++ (List.foldl (specDispatchStep resps) ([], Except.ok st) l).1,
       (List.foldl (specDispatchStep resps) ([], Except.ok st) l).2) := by
  induction l generalizing cs st with
  | nil => simp
  | cons e l ih =>
    simp only [List.foldl_cons]
    have hstep : ∀ cs0 : List Cmd, specDispatchStep resps (cs0, Except.ok st) e =
        (cs0 ++ (specEventAction st e.2 (resps e.1)).1,
         (specEventAction st e.2 (resps e.1)).2) := fun _ => rfl
    rw [hstep cs, hstep []]
    simp only [List.nil_append]
    cases hres : (specEventAction st e.2 (resps e.1)).2 with
    | error h =>
      rw [specDispatchStep_error, specDispatchStep_error]
    | ok st1 =>
      rw [ih (cs ++ (specEventAction st e.2 (resps e.1)).1) st1,
        ih ((specEventAction st e.2 (resps e.1)).1) st1]
      simp [List.append_assoc]

/-! ## Claim C1 -/

/-- Claim C1 (code bug): the spec says the percentage handed to the
backend is the post-clamp value and always lies in `[min, max]`; the code
formats the RAW requested value into the command.  At the failing input —
`VolumeLevel = 60 = min`, `step_down()` with a faithful backend — the
command handed to `amixer` is `set 'Master' unmute 59%` with 59 below
`VOLUME_MIN` (and the readback then stores 59 locally), where the claim
requires the clamped 60. -/
theorem C1_sends_raw_value :
    down stAtMin respPlayback59 =
      ([Cmd.setUnmutePct 59], Except.ok { stAtMin with volume := 59 }) ∧
    (59 : Int) < VOLUME_MIN ∧ stAtMin.volume = VOLUME_MIN ∧
    stAtMin.min = VOLUME_MIN :=
  ⟨rfl, by decide, rfl, rfl⟩

/-! ## Claim C2 -/

/-- Claim C2 (code bug): the spec's mute round trip assumes the first
`toggle()` only mutes and the second only unmutes-and-restores.  Because
`_sync` assigns `self.is_muted` while `toggle` reads `self._is_muted`
(never reassigned after `__init__`), a `toggle()` from the unmuted state
at 70% issues `mute` and then immediately `unmute 70%` in the same call,
leaves `_is_muted` false, and a second `toggle()` from the resulting
state behaves identically — it never issues a bare `unmute`. -/
theorem C2_stale_mute_flag :
    toggle stAt70 respPlayback70Off respPlayback70On =
      ([Cmd.setMute, Cmd.setUnmutePct 70],
       Except.ok { stAt70 with last_volume := 70 }) ∧
    toggle { stAt70 with last_volume := 70 } respPlayback70Off respPlayback70On =
      ([Cmd.setMute, Cmd.setUnmutePct 70],
       Except.ok { stAt70 with last_volume := 70 }) ∧
    stAt70.is_muted_priv = false ∧
    ({ stAt70 with last_volume := 70 } : VolumeState).is_muted_priv = false :=
  ⟨rfl, rfl, rfl, rfl⟩

/-! ## Claim C3 -/

/-- Claim C3, counterexample: it is NOT the case that every failing
backend invocation terminates the process with a non-zero exit code — an
`amixer` exit status of 1 makes the script call `sys.exit(0)`. -/
theorem C3_nonzero_exit_counterexample :
    ¬ (∀ r : AmixerResp, r.code ≠ 0 →
        ∀ c : Int, amixer r = Except.error (Halt.exit c) → c ≠ 0) := by
  intro hclaim
  exact hclaim { code := 1, lines := [] } (by decide) 0 rfl rfl

/-- Claim C3, amended: every backend invocation returning a non-zero exit
status does terminate the process, but via `sys.exit(0)` — exit code 0,
the same code the clean-termination handler `_on_exit` uses. -/
theorem C3_exit_zero_on_backend_failure :
    (∀ r : AmixerResp, r.code ≠ 0 → amixer r = Except.error (Halt.exit 0)) ∧
    on_exit_halt = Halt.exit 0 := by
  constructor
  · intro r h
    unfold amixer
    rw [if_pos h]
  · rfl

/-- Claim C3, witness: the amended theorem applied to a backend failure
with exit status 5. -/
theorem C3_exit_zero_witness :
    amixer { code := 5, lines := [] } = Except.error (Halt.exit 0) :=
  C3_exit_zero_on_backend_failure.1 { code := 5, lines := [] } (by decide)

/-! ## Claim C4 -/

/-- Claim C4, counterexample: it is NOT the case that the parsed
MuteState is false exactly when the token between the last `[` and the
last `]` equals `off` — on a status line ending in `[off]` the code sets
the flag to true (which matches `amixer`, where `[off]` means muted). -/
theorem C4_mute_polarity_counterexample :
    ¬ (∀ (st st' : VolumeState) (output : List (List Char)) (last : List Char)
        (r1 r2 : Nat),
        sync st output = Except.ok st' → output.getLast? = some last →
        rfindIdx '[' last = some r1 → rfindIdx ']' last = some r2 →
        (st'.is_muted_pub = false ↔ pySlice last (r1 + 1) r2 = "off".toList)) := by
  intro hclaim
  have h := hclaim initialState
      { initialState with is_muted_pub := true, volume := 70 }
      [linePlayback70Off] linePlayback70Off 26 30 rfl rfl rfl rfl
  have hoff : pySlice linePlayback70Off 27 30 = "off".toList := by decide
  have hfalse := h.mpr hoff
  simp at hfalse

/-- Claim C4, amended: on every status line of the bracketed shape the
backend prints — a prefix free of `[` and `%`, then `[NN%]`, anything,
then a final `[tok]` with `tok` free of `[` — `_sync` sets the mute flag
to TRUE exactly when the token between the last `[` and the last `]`
equals `off`, and sets the volume to the integer between the first `[`
and the first `%`. -/
theorem C4_structured_parse (st : VolumeState) (p ds mid tok : List Char)
    (h1 : ds ≠ []) (h2 : ∀ c ∈ ds, c ∈ "0123456789".toList)
    (hp1 : '[' ∉ p) (hp2 : '%' ∉ p) (htok : '[' ∉ tok) :
    sync st [p ++ '[' :: ds ++ '%' :: ']' :: mid ++ '[' :: tok ++ [']']] =
      Except.ok { st with is_muted_pub := tok == "off".toList,
                          volume := ((digitsToNat ds : Nat) : Int) } := by
  set L := p ++ '[' :: ds ++ '%' :: ']' :: mid ++ '[' :: tok ++ [']'] with hLdef
  set front := p ++ '[' :: ds ++ '%' :: ']' :: mid with hfrontdef
  have hpctNoPct : '%' ∉ ds := by
    intro h
    have := h2 '%' h
    simp at this
  have hlb : rfindIdx '[' L = some front.length := by
    have hnone : rfindIdx '[' (tok ++ [']']) = none := by
      apply rfindIdx_eq_none
      simp
      intro h
      exact htok h
    have h0 : rfindIdx '[' ('[' :: (tok ++ [']'])) = some 0 := by
      simp [rfindIdx, hnone]
    calc rfindIdx '[' L = rfindIdx '[' (front ++ '[' :: (tok ++ [']'])) := by
          rw [show L = front ++ '[' :: (tok ++ [']']) from by
            simp [hLdef, hfrontdef, List.append_assoc]]
      _ = some (front.length + 0) := rfindIdx_append_some '[' front ('[' :: (tok ++ [']'])) 0 h0
      _ = some front.length := by simp
  have hrb : rfindIdx ']' L = some (front.length + (tok.length + 1)) := by
    have h0 : rfindIdx ']' ('[' :: (tok ++ [']'])) = some (tok.length + 1) := by
      have := rfindIdx_concat_self ']' tok
      simp [rfindIdx, this]
    calc rfindIdx ']' L = rfindIdx ']' (front ++ '[' :: (tok ++ [']'])) := by
          rw [show L = front ++ '[' :: (tok ++ [']']) from by
            simp [hLdef, hfrontdef, List.append_assoc]]
      _ = some (front.length + (tok.length + 1)) :=
          rfindIdx_append_some ']' front ('[' :: (tok ++ [']'])) (tok.length + 1) h0
  have hfb : findIdx '[' L = some p.length := by
    have := findIdx_append_some '[' p
      ('[' :: (ds ++ '%' :: ']' :: mid ++ '[' :: tok ++ [']'])) 0 hp1
      (findIdx_cons_self '[' (ds ++ '%' :: ']' :: mid ++ '[' :: tok ++ [']']))
    calc findIdx '[' L
        = findIdx '[' (p ++ '[' :: (ds ++ '%' :: ']' :: mid ++ '[' :: tok ++ [']'])) := by
          rw [show L = p ++ '[' :: (ds ++ '%' :: ']' :: mid ++ '[' :: tok ++ [']']) from by
            simp [hLdef, hfrontdef, List.append_assoc]]
      _ = some (p.length + 0) := this
      _ = some p.length := by simp
  have hpb : findIdx '%' L = some (p.length + 1 + ds.length) := by
    have hnm : '%' ∉ (p ++ '[' :: ds) := by
      simp [List.mem_append]
      exact ⟨hp2, hpctNoPct⟩
    have key := findIdx_append_some '%' (p ++ '[' :: ds)
      ('%' :: (']' :: mid ++ '[' :: tok ++ [']'])) 0 hnm
      (findIdx_cons_self '%' (']' :: mid ++ '[' :: tok ++ [']']))
    calc findIdx '%' L
        = findIdx '%' ((p ++ '[' :: ds) ++ '%' :: (']' :: mid ++ '[' :: tok ++ [']'])) := by
          rw [show L = (p ++ '[' :: ds) ++ '%' :: (']' :: mid ++ '[' :: tok ++ [']']) from by
            simp [hLdef, hfrontdef, List.append_assoc]]
      _ = some ((p ++ '[' :: ds).length + 0) := key
      _ = some (p.length + 1 + ds.length) := by
          simp [List.length_append]
          omega
  have hslice1 : pySlice L (front.length + 1) (front.length + (tok.length + 1)) = tok := by
    have key := pySlice_append_mid (front ++ ['[']) tok [']']
    calc pySlice L (front.length + 1) (front.length + (tok.length + 1))
        = pySlice ((front ++ ['[']) ++ (tok ++ [']']))
            (front ++ ['[']).length ((front ++ ['[']).length + tok.length) := by
          rw [show L = (front ++ ['[']) ++ (tok ++ [']']) from by
            simp [hLdef, hfrontdef, List.append_assoc]]
          congr 1 <;> simp [List.length_append] <;> omega
      _ = tok := key
  have hslice2 : pySlice L (p.length + 1) (p.length + 1 + ds.length) = ds := by
    have key := pySlice_append_mid (p ++ ['[']) ds ('%' :: ']' :: mid ++ '[' :: tok ++ [']'])
    calc pySlice L (p.length + 1) (p.length + 1 + ds.length)
        = pySlice ((p ++ ['[']) ++ (ds ++ ('%' :: ']' :: mid ++ '[' :: tok ++ [']'])))
            (p ++ ['[']).length ((p ++ ['[']).length + ds.length) := by
          rw [show L = (p ++ ['[']) ++ (ds ++ ('%' :: ']' :: mid ++ '[' :: tok ++ [']'])) from by
            simp [hLdef, hfrontdef, List.append_assoc]]
          congr 1 <;> simp [List.length_append]
      _ = ds := key
  unfold sync
  simp only [List.getLast?_singleton]
  rw [hlb, hrb, hfb, hpb]
  simp only []
  rw [show front.length + 1 + 0 = front.length + 1 from by omega]
  rw [hslice1, hslice2, pyInt_digits ds h1 h2]

/-- Claim C4, witness: the amended theorem applied to the concrete line
`  Mono: Playback 70 [70%] [off]`, giving volume 70 and mute flag true. -/
theorem C4_structured_parse_witness :
    sync stAt70
      ["  Mono: Playback 70 ".toList ++ '[' :: "70".toList ++ '%' :: ']' ::
        " ".toList ++ '[' :: "off".toList ++ [']']] =
      Except.ok { stAt70 with is_muted_pub := true, volume := 70 } :=
  C4_structured_parse stAt70 ("  Mono: Playback 70 ".toList) ("70".toList)
    (" ".toList) ("off".toList) (by decide) (by decide) (by decide) (by decide)
    (by decide)

/-! ## Claim C5 -/

/-- Claim C5: for every edge notification not suppressed by the same-line
debounce, a rotation event is emitted iff the firing line's new level is
high and the other line's stored level is high — `+1` exactly for line A
with B's stored level high, `-1` exactly for line B with A's stored level
high, and nothing otherwise. -/
theorem C5_emit_rule (st : EncState) (ch lv : Nat)
    (hab : st.gpio_a ≠ st.gpio_b) (hacc : some ch ≠ st.last_gpio) :
    ((rotation_callback st ch lv).2 = some 1 ↔
      (ch = st.gpio_a ∧ lv = 1 ∧ st.lev_b = 1)) ∧
    ((rotation_callback st ch lv).2 = some (-1) ↔
      (ch = st.gpio_b ∧ lv = 1 ∧ st.lev_a = 1)) ∧
    (¬ (ch = st.gpio_a ∧ lv = 1 ∧ st.lev_b = 1) →
     ¬ (ch = st.gpio_b ∧ lv = 1 ∧ st.lev_a = 1) →
     (rotation_callback st ch lv).2 = none) := by
  by_cases hA : ch = st.gpio_a <;>
    by_cases hB : ch = st.gpio_b <;>
    by_cases h1 : lv = 1 <;>
    by_cases hb : st.lev_b = 1 <;>
    by_cases ha : st.lev_a = 1 <;>
    simp_all [rotation_callback]

/-- Claim C5, witness: line A (pin 10) reporting level 1 while B's stored
level is high, from a fresh accepted state. -/
theorem C5_emit_rule_witness :
    ((rotation_callback encBHigh 10 1).2 = some 1 ↔
      ((10 : Nat) = encBHigh.gpio_a ∧ (1 : Nat) = 1 ∧ encBHigh.lev_b = 1)) ∧
    ((rotation_callback encBHigh 10 1).2 = some (-1) ↔
      ((10 : Nat) = encBHigh.gpio_b ∧ (1 : Nat) = 1 ∧ encBHigh.lev_a = 1)) ∧
    (¬ ((10 : Nat) = encBHigh.gpio_a ∧ (1 : Nat) = 1 ∧ encBHigh.lev_b = 1) →
     ¬ ((10 : Nat) = encBHigh.gpio_b ∧ (1 : Nat) = 1 ∧ encBHigh.lev_a = 1) →
     (rotation_callback encBHigh 10 1).2 = none) :=
  C5_emit_rule encBHigh 10 1 (by decide) (by decide)

/-! ## Claim C6 -/

/-- Claim C6: when the firing line equals `LastActivatedLine`, the
callback records the new level into the per-line store and returns with
no event and `LastActivatedLine` unchanged. -/
theorem C6_same_line_debounce (st : EncState) (ch lv : Nat)
    (hdb : some ch = st.last_gpio) :
    rotation_callback st ch lv =
      ((if ch = st.gpio_a then { st with lev_a := lv }
        else { st with lev_b := lv }), none) ∧
    ((rotation_callback st ch lv).1).last_gpio = st.last_gpio := by
  by_cases hA : ch = st.gpio_a <;> simp_all [rotation_callback, ← hdb]

/-- Claim C6, witness: a repeated notification from line A (pin 10) with
a falling level is stored but emits nothing. -/
theorem C6_same_line_debounce_witness :
    rotation_callback encAfterA 10 0 = ({ encAfterA with lev_a := 0 }, none) ∧
    ((rotation_callback encAfterA 10 0).1).last_gpio = encAfterA.last_gpio :=
  C6_same_line_debounce encAfterA 10 0 rfl

/-! ## Claim C7 -/

/-- Claim C7, counterexample: the invariant `min ≤ VolumeLevel ≤ max`
does not survive `_sync` — constructing `Volume` against a backend whose
readback reports 59% leaves `VolumeLevel = 59` below `min = 60`. -/
theorem C7_invariant_counterexample :
    volumeInit respPlayback59 =
      ([Cmd.getStatus], Except.ok { initialState with volume := 59 }) ∧
    ({ initialState with volume := 59 } : VolumeState).volume <
      ({ initialState with volume := 59 } : VolumeState).min :=
  ⟨rfl, by decide⟩

/-- Claim C7, amended: `_constrain` alone respects the bounds (when
`min ≤ max`), but every mutation — `up`, `down`, `toggle`,
`synchronize`, and construction — ends in a `_sync` whose successful
result carries exactly the backend-reported percentage, unclamped, with
`min`/`max` unchanged; so after any successful mutation the invariant
holds iff that reported percentage lies within `[min, max]`. -/
theorem C7_clamp_overwritten_by_readback :
    (∀ (st : VolumeState) (v : Int), st.min ≤ st.max →
        st.min ≤ constrain st v ∧ constrain st v ≤ st.max) ∧
    (∀ (st st' : VolumeState) (output : List (List Char)) (last : List Char)
        (i j : Nat),
        sync st output = Except.ok st' → output.getLast? = some last →
        findIdx '[' last = some i → findIdx '%' last = some j →
        pyInt (pySlice last (i + 1) j) = some st'.volume ∧
        st'.min = st.min ∧ st'.max = st.max) ∧
    (∀ (st st' : VolumeState) (r : AmixerResp) (cs : List Cmd),
        up st r = (cs, Except.ok st') →
        ∃ st1, sync st1 r.lines = Except.ok st') ∧
    (∀ (st st' : VolumeState) (r : AmixerResp) (cs : List Cmd),
        down st r = (cs, Except.ok st') →
        ∃ st1, sync st1 r.lines = Except.ok st') ∧
    (∀ (st st' : VolumeState) (r : AmixerResp) (cs : List Cmd),
        sync_query st r = (cs, Except.ok st') →
        sync st r.lines = Except.ok st') ∧
    (∀ (st st' : VolumeState) (r1 r2 : AmixerResp) (cs : List Cmd),
        toggle st r1 r2 = (cs, Except.ok st') →
        ∃ st1, sync st1 r1.lines = Except.ok st' ∨
          sync st1 r2.lines = Except.ok st') ∧
    (∀ (st' : VolumeState) (r : AmixerResp) (cs : List Cmd),
        volumeInit r = (cs, Except.ok st') →
        sync initialState r.lines = Except.ok st') := by
  refine ⟨?_, ?_, ?_, ?_, ?_, ?_, ?_⟩
  · intro st v h
    unfold constrain
    split_ifs <;> omega
  · intro st st' output last i j hsync hlast hi hj
    obtain ⟨last2, r1, r2, i1, i2, n, hl2, hr1, hr2, hi1, hi2, hn, hst⟩ :=
      sync_ok_inv st st' output hsync
    rw [hlast] at hl2
    rw [Option.some.injEq] at hl2
    subst hl2
    rw [hi1] at hi
    rw [Option.some.injEq] at hi
    subst hi
    rw [hi2] at hj
    rw [Option.some.injEq] at hj
    subst hj
    subst hst
    exact ⟨hn, rfl, rfl⟩
  · intro st st' r cs h
    have h2 := congrArg Prod.snd h
    exact ⟨_, set_volume_snd_ok_inv st st' r (st.volume + st.increment) h2⟩
  · intro st st' r cs h
    have h2 := congrArg Prod.snd h
    exact ⟨_, set_volume_snd_ok_inv st st' r (st.volume - st.increment) h2⟩
  · intro st st' r cs h
    exact sync_query_ok_inv st st' r cs h
  · intro st st' r1 r2 cs h
    exact toggle_ok_inv st st' r1 r2 cs h
  · intro st' r cs h
    exact sync_query_ok_inv initialState st' r cs h

/-- Claim C7, witness: the amended theorem's clamp part applied to a
request of 100% from the initial state. -/
theorem C7_constrain_witness :
    initialState.min ≤ constrain initialState 100 ∧
    constrain initialState 100 ≤ initialState.max :=
  C7_clamp_overwritten_by_readback.1 initialState 100 (by decide)

/-! ## Claim C8 -/

/-- Claim C8: one drain pass of `consume_queue` applies the queued deltas
to the volume controller strictly in dequeue order — `+1` invoking `up`,
`-1` invoking `down` — exactly as the spec-side FIFO fold does, with the
command traces concatenated in that order and no event skipped or
merged. -/
theorem C8_fifo_dispatch (st : VolumeState) (q : List Int)
    (resps : Nat → AmixerResp) (k : Nat) (h : ∀ d ∈ q, d = 1 ∨ d = -1) :
    consume_queue st q resps k = specDispatch st q resps k := by
  induction q generalizing st k with
  | nil => rfl
  | cons d rest ih =>
    have hd := h d (List.mem_cons_self d rest)
    have hrest : ∀ x ∈ rest, x = 1 ∨ x = -1 :=
      fun x hx => h x (List.mem_cons_of_mem d hx)
    have hact : specEventAction st d (resps k) =
        (if d = 1 then up st (resps k) else down st (resps k)) := by
      rcases hd with rfl | rfl <;> simp [specEventAction]
    unfold consume_queue specDispatch
    simp only [List.enumFrom_cons, List.foldl_cons]
    have hstep : specDispatchStep resps ([], Except.ok st) (k, d) =
        ((specEventAction st d (resps k)).1, (specEventAction st d (resps k)).2) := by
      simp [specDispatchStep]
    rw [hstep, hact]
    cases hres : (if d = 1 then up st (resps k) else down st (resps k)).2 with
    | error h' =>
      rw [specDispatchStep_error]
    | ok st1 =>
      rw [specDispatchStep_shift]
      have ih2 := ih st1 (k + 1) hrest
      unfold specDispatch at ih2
      rw [← ih2]

/-- Claim C8, witness: the theorem applied to the queue `[+1, -1]` with a
backend that always reports 70% unmuted. -/
theorem C8_fifo_dispatch_witness :
    consume_queue stAt70 [1, -1] (fun _ => respPlayback70On) 0 =
      specDispatch stAt70 [1, -1] (fun _ => respPlayback70On) 0 :=
  C8_fifo_dispatch stAt70 [1, -1] (fun _ => respPlayback70On) 0 (by decide)

/-! ## Claim C9 -/

/-- Claim C9, counterexample: an edge reported for line 99 — neither the
configured pin 10 nor 11 — is NOT rejected with an assert/abort: the
callback records the level into line B's store, sets `_last_gpio` to 99,
and returns normally with no event. -/
theorem C9_no_rejection_counterexample :
    rotation_callback encInit 99 1 =
      ({ encInit with lev_b := 1, last_gpio := some 99 }, none) := rfl

/-- Claim C9, amended: an edge for a line that is neither A nor B is
processed, not rejected — its level always lands in line B's store
(the `else` of the channel test), `LastActivatedLine` becomes that line
unless it already was, and no event is ever emitted. -/
theorem C9_unconfigured_processed (st : EncState) (ch lv : Nat)
    (hA : ch ≠ st.gpio_a) (hB : ch ≠ st.gpio_b) :
    rotation_callback st ch lv =
      (if some ch = st.last_gpio then ({ st with lev_b := lv }, none)
       else ({ st with lev_b := lv, last_gpio := some ch }, none)) := by
  by_cases hdb : some ch = st.last_gpio <;> simp_all [rotation_callback]

/-- Claim C9, witness: the amended theorem applied to a repeated
notification from the unconfigured line 99. -/
theorem C9_unconfigured_processed_witness :
    rotation_callback encAfter99 99 0 = ({ encAfter99 with lev_b := 0 }, none) :=
  C9_unconfigured_processed encAfter99 99 0 (by decide) (by decide)

/-! ## Claim C10 -/

/-- Claim C10: the GPIO wrapper invokes the registered button callback
with one positional argument (the pin level), but
`EventWrapper._on_press_toggle` declares none, so every accepted button
edge raises `TypeError` and `toggle` is never reached through the
button path. -/
theorem C10_button_callback_type_error (st : VolumeState) (r1 r2 : AmixerResp)
    (level : Nat) :
    gpio_input_button_callback st r1 r2 level = PyCallResult.typeError := rfl

end RotaryVolume
